import Mathlib

/-
Verification development for the LiveFitTrack fitness-tracking client.

The repository contains two variants of the application core:
  * the service-based variant: `src/app/app.component.ts` together with the
    `AuthService` facade (namespace `Svc` below), and
  * the single-file variant: an app component with inlined Firestore access
    (namespace `Inline` below).

Modelling conventions:
  * JavaScript `Date` values are integer timestamps (`Timestamp := Int`).
  * Geographic coordinates (latitude / longitude / accuracy) are opaque
    numeric payloads modelled as `Int`; the application never performs
    arithmetic on them, it only stores and reloads them.
  * The document store is a per-user slice: the document at `users/{uid}`
    plus the `workouts` and `locations` sub-collections of that user.
    Store-assigned document ids are modelled by a `nextId` counter.
  * The vendor query `orderBy(field, desc)` is modelled by `sortByDesc`,
    an insertion sort by the key, descending.
  * Transport failures of awaited vendor calls are modelled by a Boolean
    outcome parameter per call; a failing call raises `StoreError.transport`
    (the code rethrows or catches raw vendor errors).
  * The Firestore `Timestamp.toDate()` conversions performed on load are
    identities on the integer timestamp payload.
-/

namespace LiveFit

/-- JavaScript dates are modelled as integer timestamps. -/
abbrev Timestamp := Int

/-- A workout record as loaded from the store (interface Workout). -/
structure Workout where
  id : Nat
  name : String
  wtype : String
  duration : Int
  notes : String
  date : Timestamp
deriving DecidableEq

/-- Workout payload without the store-assigned id (TS: Omit Workout id). -/
structure WorkoutData where
  name : String
  wtype : String
  duration : Int
  notes : String
  date : Timestamp
deriving DecidableEq

/-- A location record (interface Location). A transient, not yet saved
location carries the placeholder id 0 (the source uses the empty string). -/
structure Location where
  id : Nat
  latitude : Int
  longitude : Int
  accuracy : Int
  timestamp : Timestamp
  savedAt : Timestamp
deriving DecidableEq

/-- Location payload without id and save timestamp
(TS: Omit Location id savedAt). -/
structure LocationData where
  latitude : Int
  longitude : Int
  accuracy : Int
  timestamp : Timestamp
deriving DecidableEq

/-- The signed-in identity pushed by the session provider
(Firebase auth user). Email and display name may be absent. -/
structure AuthUser where
  uid : String
  email : Option String
  displayName : Option String
deriving DecidableEq

/-- Store/transport failure raised by a vendor call. -/
inductive StoreError where
  | transport
deriving DecidableEq

/-- Authentication failure carrying the vendor error code string. -/
structure AuthError where
  code : String
deriving DecidableEq

/-- Options passed to the single-shot device location request
(enableHighAccuracy / timeout in ms / maximumAge in ms). -/
structure GeoOptions where
  enableHighAccuracy : Bool
  timeoutMs : Int
  maximumAgeMs : Int
deriving DecidableEq

/-- One request issued to the device location API. getCurrentPosition is
always single-shot; the options argument may be absent. -/
structure GeoRequest where
  singleShot : Bool
  options : Option GeoOptions
deriving DecidableEq

/-- Coordinates of a device position fix. -/
structure GeoCoords where
  latitude : Int
  longitude : Int
  accuracy : Int
deriving DecidableEq

/-- A device position fix. -/
structure GeoPosition where
  coords : GeoCoords
  timestamp : Timestamp
deriving DecidableEq

/-- A device location failure carrying the numeric error code
(1 permission denied, 2 position unavailable, 3 timed out). -/
structure GeoError where
  code : Nat
deriving DecidableEq

/-- Insert an element into a list sorted descending by the key. -/
def insertDesc {α : Type} (key : α → Int) (x : α) : List α → List α
  | [] => [x]
  | y :: l => if key y ≤ key x then x :: y :: l else y :: insertDesc key x l

/-- Model of the store query orderBy(field, desc): sort descending by key. -/
def sortByDesc {α : Type} (key : α → Int) : List α → List α
  | [] => []
  | x :: l => insertDesc key x (sortByDesc key l)

theorem mem_insertDesc {α : Type} {key : α → Int} {x z : α} {l : List α} :
    z ∈ insertDesc key x l ↔ z = x ∨ z ∈ l := by
  induction l with
  | nil => simp [insertDesc]
  | cons y t ih =>
    by_cases h : key y ≤ key x
    · simp [insertDesc, h]
    · simp [insertDesc, h, ih]
      tauto

theorem mem_sortByDesc {α : Type} {key : α → Int} {z : α} {l : List α} :
    z ∈ sortByDesc key l ↔ z ∈ l := by
  induction l with
  | nil => simp [sortByDesc]
  | cons y t ih => simp [sortByDesc, mem_insertDesc, ih]

theorem sorted_insertDesc {α : Type} {key : α → Int} {x : α} {l : List α}
    (hl : List.Sorted (fun a b => key b ≤ key a) l) :
    List.Sorted (fun a b => key b ≤ key a) (insertDesc key x l) := by
  induction l with
  | nil => simp [insertDesc]
  | cons y t ih =>
    rcases (List.sorted_cons.mp hl) with ⟨hy, ht⟩
    by_cases h : key y ≤ key x
    · rw [insertDesc, if_pos h]
      refine List.sorted_cons.mpr ⟨?_, hl⟩
      intro z hz
      rcases List.mem_cons.mp hz with hz | hz
      · subst hz
        exact h
      · exact le_trans (hy z hz) h
    · rw [insertDesc, if_neg h]
      refine List.sorted_cons.mpr ⟨?_, ih ht⟩
      intro z hz
      rcases mem_insertDesc.mp hz with hz | hz
      · subst hz
        exact le_of_lt (not_le.mp h)
      · exact hy z hz

theorem sorted_sortByDesc {α : Type} (key : α → Int) (l : List α) :
    List.Sorted (fun a b => key b ≤ key a) (sortByDesc key l) := by
  induction l with
  | nil => exact List.sorted_nil
  | cons x t ih => exact sorted_insertDesc ih

theorem insertDesc_eq_cons {α : Type} {key : α → Int} {x : α} {l : List α}
    (h : ∀ y ∈ l, key y < key x) : insertDesc key x l = x :: l := by
  cases l with
  | nil => rfl
  | cons y t => rw [insertDesc, if_pos (le_of_lt (h y (by simp)))]

theorem sortByDesc_cons_of_fresh {α : Type} {key : α → Int} {x : α} {l : List α}
    (h : ∀ y ∈ l, key y < key x) :
    sortByDesc key (x :: l) = x :: sortByDesc key l := by
  rw [sortByDesc]
  exact insertDesc_eq_cons (fun y hy => h y (mem_sortByDesc.mp hy))

/-- Records surviving a delete by id never carry the deleted id, even after
the descending reload sort. -/
theorem id_not_mem_sortByDesc_filter {α : Type} (idOf : α → Nat) (key : α → Int)
    (wid : Nat) (l : List α) :
    wid ∉ (sortByDesc key (l.filter (fun x => idOf x ≠ wid))).map idOf := by
  intro hmem
  rcases List.mem_map.mp hmem with ⟨x, hx, hid⟩
  have hx2 := mem_sortByDesc.mp hx
  have := List.of_mem_filter hx2
  simp at this
  exact this hid

/-
Service-based variant: src/app/app.component.ts (AppComponent) together with
the AuthService facade defined in the same file.
-/

namespace Svc

/-- The User record of the service variant (interface User in
auth.service): identity-provider profile merged with the store document. -/
structure User where
  uid : String
  email : String
  username : String
  displayName : String
  createdAt : Timestamp
deriving DecidableEq

/-- A document field value, for the dynamic-field model of the user
document used by the merge write of updateUserProfile. -/
inductive FieldValue where
  | str : String → FieldValue
  | num : Int → FieldValue
  | flag : Bool → FieldValue
  | time : Timestamp → FieldValue
deriving DecidableEq

/-- A raw store document: a mapping from field name to optional value. -/
def Doc := String → Option FieldValue

/-- Firestore setDoc with merge: listed fields are overwritten, every other
field keeps its previous value. -/
def setDocMerge (fields : List (String × FieldValue)) (d : Doc) : Doc :=
  fun k =>
    match fields.find? (fun kv => kv.1 == k) with
    | some kv => some kv.2
    | none => d k

/-- The per-user slice of the document store: the document at
users/uid plus the workouts and locations sub-collections. -/
structure Store where
  userDoc : Option User
  workouts : List Workout
  locations : List Location
  nextId : Nat
deriving DecidableEq

namespace AuthService

/-- getUserData: read the user document; none when it does not exist. -/
def getUserData (ok : Bool) (st : Store) : Except StoreError (Option User) :=
  if ok then Except.ok st.userDoc else Except.error StoreError.transport

/-- loadWorkouts: query the workouts sub-collection ordered by date
descending and map the documents to Workout records. -/
def loadWorkouts (ok : Bool) (st : Store) : Except StoreError (List Workout) :=
  if ok then Except.ok (sortByDesc (fun w => w.date) st.workouts)
  else Except.error StoreError.transport

/-- addWorkout: addDoc of the workout payload with the date field
overwritten by the current time; returns the store-assigned id. -/
def addWorkout (ok : Bool) (now : Timestamp) (w : WorkoutData) (st : Store) :
    Except StoreError (Nat × Store) :=
  if ok then
    Except.ok (st.nextId,
      { st with
        workouts := ⟨st.nextId, w.name, w.wtype, w.duration, w.notes, now⟩ :: st.workouts,
        nextId := st.nextId + 1 })
  else Except.error StoreError.transport

/-- deleteWorkout: deleteDoc of the workout document by id. -/
def deleteWorkout (ok : Bool) (wid : Nat) (st : Store) : Except StoreError Store :=
  if ok then
    Except.ok { st with workouts := st.workouts.filter (fun w => w.id ≠ wid) }
  else Except.error StoreError.transport

/-- loadLocations: query the locations sub-collection ordered by savedAt
descending and map the documents to Location records. -/
def loadLocations (ok : Bool) (st : Store) : Except StoreError (List Location) :=
  if ok then Except.ok (sortByDesc (fun l => l.savedAt) st.locations)
  else Except.error StoreError.transport

/-- saveLocation: addDoc of the location payload with savedAt overwritten
by the current time; returns the store-assigned id. -/
def saveLocation (ok : Bool) (now : Timestamp) (l : LocationData) (st : Store) :
    Except StoreError (Nat × Store) :=
  if ok then
    Except.ok (st.nextId,
      { st with
        locations := ⟨st.nextId, l.latitude, l.longitude, l.accuracy, l.timestamp, now⟩ :: st.locations,
        nextId := st.nextId + 1 })
  else Except.error StoreError.transport

/-- deleteLocation: deleteDoc of the location document by id. -/
def deleteLocation (ok : Bool) (lid : Nat) (st : Store) : Except StoreError Store :=
  if ok then
    Except.ok { st with locations := st.locations.filter (fun l => l.id ≠ lid) }
  else Except.error StoreError.transport

/-- updateUserProfile: setDoc with merge of only the username and
displayName fields into the raw user document. The parallel update of the
identity-provider display name does not touch the store document. -/
def updateUserProfile (ok : Bool) (username : String) (d : Doc) :
    Except StoreError Doc :=
  if ok then
    Except.ok (setDocMerge
      [("username", FieldValue.str username), ("displayName", FieldValue.str username)] d)
  else Except.error StoreError.transport

end AuthService

/-- Observable controller state of the service-variant AppComponent.
Form and visibility fields not touched by any verified operation
(register fields, modal flags, profile messages) are omitted. -/
structure CtrlState where
  userData : Option User
  editUsername : String
  loginEmail : String
  loginPassword : String
  loginError : String
  workouts : List Workout
  savedLocations : List Location
  currentLocation : Option Location
  locationError : String
  locationLoading : Bool
deriving DecidableEq

namespace AppComponent

/-- getAuthErrorMessage of the service variant. -/
def getAuthErrorMessage (code : String) : String :=
  match code with
  | "auth/invalid-email" => "Invalid email address."
  | "auth/user-disabled" => "This account has been disabled."
  | "auth/user-not-found" => "No account found with this email."
  | "auth/wrong-password" => "Incorrect password."
  | "auth/email-already-in-use" => "An account with this email already exists."
  | "auth/weak-password" => "Password should be at least 6 characters."
  | "auth/network-request-failed" => "Network error. Please check your connection."
  | _ => "An error occurred. Please try again."

/-- Controller loadWorkouts: early return when no signed-in user record
with a truthy uid is present; on facade success set the workouts signal;
on failure only log (the signal keeps its previous value). -/
def loadWorkouts (ok : Bool) (store : Store) (st : CtrlState) : CtrlState :=
  match st.userData with
  | none => st
  | some u =>
    if u.uid = "" then st
    else
      match AuthService.loadWorkouts ok store with
      | Except.ok ws => { st with workouts := ws }
      | Except.error _ => st

/-- Controller loadLocations: same shape as loadWorkouts. -/
def loadLocations (ok : Bool) (store : Store) (st : CtrlState) : CtrlState :=
  match st.userData with
  | none => st
  | some u =>
    if u.uid = "" then st
    else
      match AuthService.loadLocations ok store with
      | Except.ok ls => { st with savedLocations := ls }
      | Except.error _ => st

/-- Constructor subscription to the session stream: on a signed-in user,
fetch the user document (failure only logged), then load both lists; on
sign-out clear all user-scoped state. -/
def onSessionChange (fetchOk wOk lOk : Bool) (store : Store)
    (fbUser : Option AuthUser) (st : CtrlState) : CtrlState :=
  match fbUser with
  | some _ =>
    let st1 :=
      match AuthService.getUserData fetchOk store with
      | Except.ok ud =>
        { st with
          userData := ud,
          editUsername := match ud with | some u => u.username | none => "" }
      | Except.error _ => st
    loadLocations lOk store (loadWorkouts wOk store st1)
  | none =>
    { st with workouts := [], savedLocations := [], userData := none }

/-- Controller deleteWorkout: await the facade delete, then await the
controller list reload; any failure is only logged. -/
def deleteWorkout (deleteOk reloadOk : Bool) (wid : Nat) (store : Store)
    (st : CtrlState) : Store × CtrlState :=
  match st.userData with
  | none => (store, st)
  | some u =>
    if u.uid = "" then (store, st)
    else
      match AuthService.deleteWorkout deleteOk wid store with
      | Except.ok store2 => (store2, loadWorkouts reloadOk store2 st)
      | Except.error _ => (store, st)

/-- Controller deleteLocation: await the facade delete, then await the
controller list reload; any failure is only logged. -/
def deleteLocation (deleteOk reloadOk : Bool) (lid : Nat) (store : Store)
    (st : CtrlState) : Store × CtrlState :=
  match st.userData with
  | none => (store, st)
  | some u =>
    if u.uid = "" then (store, st)
    else
      match AuthService.deleteLocation deleteOk lid store with
      | Except.ok store2 => (store2, loadLocations reloadOk store2 st)
      | Except.error _ => (store, st)

/-- getLocationErrorMessage of the service variant. -/
def getLocationErrorMessage (e : GeoError) : String :=
  match e.code with
  | 1 => "Location access denied. Please enable location permissions."
  | 2 => "Location information unavailable."
  | 3 => "Location request timed out."
  | _ => "An unknown error occurred while getting location."

/-- Controller getCurrentLocation of the service variant: after the
support check it issues one getCurrentPosition request WITHOUT an options
argument; success populates the transient current location, failure maps
the error code to a message. The list of issued device requests is
returned alongside the new state. -/
def getCurrentLocation (supported : Bool) (outcome : Except GeoError GeoPosition)
    (now : Timestamp) (st : CtrlState) : List GeoRequest × CtrlState :=
  let st1 := { st with locationLoading := true, locationError := "" }
  if supported = false then
    ([], { st1 with
           locationError := "Geolocation is not supported by this browser.",
           locationLoading := false })
  else
    ([⟨true, none⟩],
      match outcome with
      | Except.ok pos =>
        { st1 with
          currentLocation := some
            ⟨0, pos.coords.latitude, pos.coords.longitude, pos.coords.accuracy,
             pos.timestamp, now⟩,
          locationLoading := false }
      | Except.error e =>
        { st1 with
          locationError := getLocationErrorMessage e,
          locationLoading := false })

/-- Controller onLogin: clear the error, await the credential check; on
failure map the code to a message; on success clear the form fields. The
session value is only changed by a successful authentication. -/
def onLogin (res : Except AuthError AuthUser) (session : Option AuthUser)
    (st : CtrlState) : Option AuthUser × CtrlState :=
  let st1 := { st with loginError := "" }
  match res with
  | Except.ok u => (some u, { st1 with loginEmail := "", loginPassword := "" })
  | Except.error e => (session, { st1 with loginError := getAuthErrorMessage e.code })

end AppComponent

end Svc

/-
Single-file variant: the app component with inlined Firestore access
(interfaces Workout, Location, UserProfile and all data access inside the
component class).
-/

namespace Inline

/-- The user profile record of the single-file variant
(interface UserProfile). -/
structure UserProfile where
  id : String
  username : String
  email : String
  isPremium : Bool
  memberSince : Timestamp
deriving DecidableEq

/-- Per-user slice of the document store for the single-file variant: the
users collection holds full UserProfile documents (written by setDoc at
the path users/uid with the id field equal to uid, which is what the
where id == uid queries match). -/
structure Store where
  users : List UserProfile
  workouts : List Workout
  locations : List Location
  nextId : Nat
deriving DecidableEq

/-- The new-workout form value: Partial Workout, every field optional. -/
structure PartialWorkout where
  name : Option String
  wtype : Option String
  duration : Option Int
  notes : Option String
  date : Option Timestamp
deriving DecidableEq

/-- Observable state of the single-file AppComponent. Fields not touched
by any verified operation (register form, premium modal flags, profile
messages) are omitted. -/
structure State where
  userProfile : Option UserProfile
  isPremium : Bool
  registerUsername : String
  loginEmail : String
  loginPassword : String
  loginError : String
  workouts : List Workout
  savedLocations : List Location
  currentLocation : Option Location
  locationError : String
  locationLoading : Bool
  newWorkout : PartialWorkout
deriving DecidableEq

namespace AppComponent

/-- Username derived from the email address: the part before the at sign,
capitalised, but only when it consists purely of ASCII letters; otherwise
the generic fallback. -/
def emailUsername (email : String) : String :=
  let fallback : String := "User"
  let emailName := email.takeWhile (fun c => c ≠ '@')
  if emailName ≠ "" ∧ emailName.all (fun c => c.isAlpha) then
    (emailName.take 1).toUpper ++ (emailName.drop 1).toLower
  else fallback

/-- Username choice of createUserProfile: registration form entry first,
then the identity-provider display name, then the email-derived name,
finally the generic fallback. -/
def chooseUsername (registerUsername : String) (user : AuthUser) : String :=
  let fallback : String := "User"
  if registerUsername.trim ≠ "" then registerUsername.trim
  else if (user.displayName.getD "").trim ≠ "" then (user.displayName.getD "").trim
  else
    match user.email with
    | some e => if e ≠ "" then emailUsername e else fallback
    | none => fallback

/-- createUserProfile: no-op without an authenticated user; otherwise
build the default profile and setDoc it at users/uid (replacing any
previous document there). When the write fails, a local fallback profile
with the hard-coded username is set in state only. -/
def createUserProfile (now : Timestamp) (writeOk : Bool) (cur : Option AuthUser)
    (uid : String) (store : Store) (st : State) : Store × State :=
  match cur with
  | none => (store, st)
  | some user =>
    let username := chooseUsername st.registerUsername user
    let profile : UserProfile := ⟨uid, username, user.email.getD "", false, now⟩
    if writeOk then
      ({ store with users := profile :: store.users.filter (fun p => p.id ≠ uid) },
       { st with userProfile := some profile, isPremium := false })
    else
      (store, { st with userProfile := some ⟨uid, "Marwan", "", false, now⟩ })

/-- Set a loaded profile into state. -/
def setProfile (p : UserProfile) (st : State) : State :=
  { st with userProfile := some p, isPremium := p.isPremium }

/-- loadUserProfile: an initial fetch of the whole users collection (its
failure goes to the outer catch), then two identical where id == uid query
attempts; a non-empty result sets the profile, an empty result or a failed
outer step falls back to createUserProfile. q0Ok is the initial collection
fetch, q1Ok the first query attempt, q2Ok the second, writeOk the
createUserProfile write. -/
def loadUserProfile (now : Timestamp) (q0Ok q1Ok q2Ok writeOk : Bool)
    (cur : Option AuthUser) (uid : String) (store : Store) (st : State) :
    Store × State :=
  if q0Ok = false then createUserProfile now writeOk cur uid store st
  else
    let found := store.users.filter (fun p => p.id = uid)
    match q1Ok, found with
    | true, p :: _ => (store, setProfile p st)
    | _, _ =>
      if q2Ok = false then createUserProfile now writeOk cur uid store st
      else
        match found with
        | p :: _ => (store, setProfile p st)
        | [] => createUserProfile now writeOk cur uid store st

/-- Controller loadWorkouts of the single-file variant: without a signed-in
user the list is cleared; on query success the sorted list is set; on
query failure the list is set to empty. -/
def loadWorkouts (cur : Option AuthUser) (ok : Bool) (store : Store)
    (st : State) : State :=
  match cur with
  | none => { st with workouts := [] }
  | some _ =>
    if ok then { st with workouts := sortByDesc (fun w => w.date) store.workouts }
    else { st with workouts := [] }

/-- Controller loadSavedLocations of the single-file variant: same shape
as loadWorkouts, ordered by savedAt descending. -/
def loadSavedLocations (cur : Option AuthUser) (ok : Bool) (store : Store)
    (st : State) : State :=
  match cur with
  | none => { st with savedLocations := [] }
  | some _ =>
    if ok then
      { st with savedLocations := sortByDesc (fun l => l.savedAt) store.locations }
    else { st with savedLocations := [] }

/-- Controller addWorkout of the single-file variant: build the payload
from the form with falsy-field defaults and the date overwritten by the
current time, addDoc it, then reload the list and reset the form; a failed
addDoc is only logged. -/
def addWorkout (cur : Option AuthUser) (addOk reloadOk : Bool) (now : Timestamp)
    (store : Store) (st : State) : Store × State :=
  match cur with
  | none => (store, st)
  | some _ =>
    let w : WorkoutData :=
      ⟨st.newWorkout.name.getD "", st.newWorkout.wtype.getD "",
       st.newWorkout.duration.getD 0, st.newWorkout.notes.getD "", now⟩
    if addOk then
      let store2 :=
        { store with
          workouts := ⟨store.nextId, w.name, w.wtype, w.duration, w.notes, w.date⟩ :: store.workouts,
          nextId := store.nextId + 1 }
      let st2 := loadWorkouts cur reloadOk store2 st
      (store2, { st2 with newWorkout := ⟨some "", some "", some 0, some "", some now⟩ })
    else (store, st)

/-- Controller deleteWorkout of the single-file variant: await the
deleteDoc, then await the list reload; a failed delete is only logged and
skips the reload. -/
def deleteWorkout (cur : Option AuthUser) (deleteOk reloadOk : Bool) (wid : Nat)
    (store : Store) (st : State) : Store × State :=
  match cur with
  | none => (store, st)
  | some _ =>
    if deleteOk then
      let store2 := { store with workouts := store.workouts.filter (fun w => w.id ≠ wid) }
      (store2, loadWorkouts cur reloadOk store2 st)
    else (store, st)

/-- Controller deleteLocation of the single-file variant. -/
def deleteLocation (cur : Option AuthUser) (deleteOk reloadOk : Bool) (lid : Nat)
    (store : Store) (st : State) : Store × State :=
  match cur with
  | none => (store, st)
  | some _ =>
    if deleteOk then
      let store2 := { store with locations := store.locations.filter (fun l => l.id ≠ lid) }
      (store2, loadSavedLocations cur reloadOk store2 st)
    else (store, st)

/-- getAuthErrorMessage of the single-file variant (no trailing periods on
most messages). -/
def getAuthErrorMessage (code : String) : String :=
  match code with
  | "auth/invalid-email" => "Invalid email address"
  | "auth/user-disabled" => "This account has been disabled"
  | "auth/user-not-found" => "No account found with this email"
  | "auth/wrong-password" => "Incorrect password"
  | "auth/email-already-in-use" => "An account with this email already exists"
  | "auth/weak-password" => "Password is too weak"
  | "auth/network-request-failed" => "Network error. Please check your connection"
  | _ => "An error occurred. Please try again"

/-- Controller onLogin of the single-file variant: empty-field check
first, then the credential check; a failure maps the code to a message;
success clears the form. The session value only changes on success. -/
def onLogin (res : Except AuthError AuthUser) (session : Option AuthUser)
    (st : State) : Option AuthUser × State :=
  let st1 := { st with loginError := "" }
  if st.loginEmail = "" ∨ st.loginPassword = "" then
    (session, { st1 with loginError := "Please enter both email and password" })
  else
    match res with
    | Except.ok u => (some u, { st1 with loginEmail := "", loginPassword := "" })
    | Except.error e => (session, { st1 with loginError := getAuthErrorMessage e.code })

/-- getLocationError of the single-file variant. -/
def getLocationError (e : GeoError) : String :=
  match e.code with
  | 1 => "Location access denied. Please enable location permissions."
  | 2 => "Location information unavailable."
  | 3 => "Location request timed out."
  | _ => "An unknown error occurred while getting location."

/-- Controller getCurrentLocation of the single-file variant: one
promise-wrapped getCurrentPosition request WITH the explicit options
(high accuracy, 10000 ms timeout, 60000 ms maximum cache age); success
populates the transient current location, failure maps the error code to
a message. The issued device requests are returned with the new state. -/
def getCurrentLocation (outcome : Except GeoError GeoPosition) (now : Timestamp)
    (st : State) : List GeoRequest × State :=
  let st1 := { st with locationLoading := true, locationError := "" }
  ([⟨true, some ⟨true, 10000, 60000⟩⟩],
    match outcome with
    | Except.ok pos =>
      { st1 with
        currentLocation := some
          ⟨0, pos.coords.latitude, pos.coords.longitude, pos.coords.accuracy,
           pos.timestamp, now⟩,
        locationLoading := false }
    | Except.error e =>
      { st1 with
        locationError := getLocationError e,
        locationLoading := false })

end AppComponent

end Inline

/- Concrete sample values used by witnesses and counterexamples. -/

/-- Sample service-variant user record. -/
def sampleUser : Svc.User := ⟨"u1", "a@x.com", "Ana", "Ana", 100⟩

/-- Sample session identity. -/
def sampleAuthUser : AuthUser := ⟨"u1", some "a@x.com", some "Ana"⟩

/-- Sample workout, older. -/
def sampleWorkout1 : Workout := ⟨1, "Run", "Cardio", 30, "", 50⟩

/-- Sample workout, newer. -/
def sampleWorkout2 : Workout := ⟨2, "Lift", "Strength", 40, "", 80⟩

/-- Sample saved location. -/
def sampleLocation1 : Location := ⟨1, 10, 20, 5, 40, 50⟩

/-- Sample service-variant store slice. -/
def sampleStore : Svc.Store :=
  ⟨some sampleUser, [sampleWorkout1, sampleWorkout2], [sampleLocation1], 3⟩

/-- Signed-out service-variant controller state. -/
def ctrl0 : Svc.CtrlState := ⟨none, "", "", "", "", [], [], none, "", false⟩

/-- Signed-in service-variant controller state with a loaded list. -/
def ctrlIn : Svc.CtrlState :=
  { ctrl0 with userData := some sampleUser, workouts := [sampleWorkout1] }

/-- Sample single-file-variant profile document. -/
def sampleProfile : Inline.UserProfile := ⟨"u1", "Ana", "a@x.com", false, 10⟩

/-- Sample single-file-variant store slice. -/
def sampleStoreI : Inline.Store :=
  ⟨[sampleProfile], [sampleWorkout1, sampleWorkout2], [sampleLocation1], 3⟩

/-- Signed-out single-file-variant state. -/
def stI0 : Inline.State :=
  ⟨none, false, "", "", "", "", [], [], none, "", false,
   ⟨some "", some "", some 0, some "", some 0⟩⟩

/-- Single-file-variant state with a filled login form. -/
def stILogin : Inline.State :=
  { stI0 with loginEmail := "a@x.com", loginPassword := "secret1" }

/-- Sample device position fix. -/
def samplePos : GeoPosition := ⟨⟨10, 20, 5⟩, 40⟩

/-- Claim C2: every successful loadWorkouts result is sorted by the
workout date descending and every successful loadLocations result is
sorted by the savedAt date field descending. -/
theorem claim2_sorted :
    (∀ (ok : Bool) (store : Svc.Store) (ws : List Workout),
       Svc.AuthService.loadWorkouts ok store = Except.ok ws →
       List.Sorted (fun a b => b.date ≤ a.date) ws) ∧
    (∀ (ok : Bool) (store : Svc.Store) (ls : List Location),
       Svc.AuthService.loadLocations ok store = Except.ok ls →
       List.Sorted (fun a b => b.savedAt ≤ a.savedAt) ls) := by
  constructor
  · intro ok store ws h
    cases ok with
    | false => simp [Svc.AuthService.loadWorkouts] at h
    | true =>
      simp [Svc.AuthService.loadWorkouts] at h
      exact h ▸ sorted_sortByDesc (fun w => w.date) store.workouts
  · intro ok store ls h
    cases ok with
    | false => simp [Svc.AuthService.loadLocations] at h
    | true =>
      simp [Svc.AuthService.loadLocations] at h
      exact h ▸ sorted_sortByDesc (fun l => l.savedAt) store.locations

/-- Witness for claim C2 at a concrete store. -/
theorem claim2_witness :
    List.Sorted (fun (a b : Workout) => b.date ≤ a.date)
      (sortByDesc (fun w => w.date) sampleStore.workouts) ∧
    List.Sorted (fun (a b : Location) => b.savedAt ≤ a.savedAt)
      (sortByDesc (fun l => l.savedAt) sampleStore.locations) :=
  ⟨claim2_sorted.1 true sampleStore _ rfl, claim2_sorted.2 true sampleStore _ rfl⟩

/-- Claim C6: with an empty workouts sub-collection loadWorkouts returns
the empty sequence and no error, the same for loadLocations with an empty
locations sub-collection, and the single-file controller sets the empty
list as well. -/
theorem claim6_empty (storeS : Svc.Store) (storeI : Inline.Store) (u : AuthUser)
    (st : Inline.State)
    (hw : storeS.workouts = []) (hl : storeS.locations = [])
    (hiw : storeI.workouts = []) :
    Svc.AuthService.loadWorkouts true storeS = Except.ok [] ∧
    Svc.AuthService.loadLocations true storeS = Except.ok [] ∧
    (Inline.AppComponent.loadWorkouts (some u) true storeI st).workouts = [] := by
  refine ⟨?_, ?_, ?_⟩ <;>
    simp [Svc.AuthService.loadWorkouts, Svc.AuthService.loadLocations,
      Inline.AppComponent.loadWorkouts, hw, hl, hiw, sortByDesc]

/-- Witness for claim C6 at concrete empty stores. -/
theorem claim6_witness :
    Svc.AuthService.loadWorkouts true ⟨some sampleUser, [], [], 0⟩ = Except.ok [] ∧
    Svc.AuthService.loadLocations true ⟨some sampleUser, [], [], 0⟩ = Except.ok [] ∧
    (Inline.AppComponent.loadWorkouts (some sampleAuthUser) true ⟨[], [], [], 0⟩ stI0).workouts = [] :=
  claim6_empty ⟨some sampleUser, [], [], 0⟩ ⟨[], [], [], 0⟩ sampleAuthUser stI0 rfl rfl rfl

/-- Claim C10: addWorkout always stores the current time as the occurrence
date; the caller-supplied date field is discarded (the stored record does
not depend on it), in both variants. -/
theorem claim10_date_assigned :
    (∀ (now : Timestamp) (w : WorkoutData) (store : Svc.Store),
       ∃ (store2 : Svc.Store) (rec : Workout),
         Svc.AuthService.addWorkout true now w store = Except.ok (store.nextId, store2) ∧
         store2.workouts = rec :: store.workouts ∧
         rec.date = now ∧ rec.name = w.name ∧ rec.wtype = w.wtype ∧
         rec.duration = w.duration ∧ rec.notes = w.notes) ∧
    (∀ (now : Timestamp) (w : WorkoutData) (store : Svc.Store) (d : Timestamp),
       Svc.AuthService.addWorkout true now { w with date := d } store
         = Svc.AuthService.addWorkout true now w store) ∧
    (∀ (u : AuthUser) (reloadOk : Bool) (now : Timestamp) (store : Inline.Store)
       (st : Inline.State),
       ∃ (rec : Workout),
         ((Inline.AppComponent.addWorkout (some u) true reloadOk now store st).1).workouts
           = rec :: store.workouts ∧ rec.date = now) := by
  refine ⟨?_, ?_, ?_⟩
  · intro now w store
    exact ⟨_, _, rfl, rfl, rfl, rfl, rfl, rfl, rfl⟩
  · intro now w store d
    rfl
  · intro u reloadOk now store st
    exact ⟨_, rfl, rfl⟩

/-- Claim C3 counterexample: in the service variant a failed workout load
leaves the previously loaded non-empty list in the observable state, so
the list state does not end up empty. -/
theorem claim3_counterexample :
    (Svc.AppComponent.loadWorkouts false sampleStore ctrlIn).workouts ≠ [] := by
  decide

/-- Claim C3 (amended): a failed list load sets the observable list state
to the empty list in the single-file controller; in the service-based
controller a failed load leaves the whole state, in particular the
previous list value, unchanged. -/
theorem claim3_amended :
    (∀ (u : AuthUser) (store : Inline.Store) (st : Inline.State),
       (Inline.AppComponent.loadWorkouts (some u) false store st).workouts = []) ∧
    (∀ (u : AuthUser) (store : Inline.Store) (st : Inline.State),
       (Inline.AppComponent.loadSavedLocations (some u) false store st).savedLocations = []) ∧
    (∀ (store : Svc.Store) (st : Svc.CtrlState),
       Svc.AppComponent.loadWorkouts false store st = st) ∧
    (∀ (store : Svc.Store) (st : Svc.CtrlState),
       Svc.AppComponent.loadLocations false store st = st) := by
  refine ⟨?_, ?_, ?_, ?_⟩
  · intro u store st
    rfl
  · intro u store st
    rfl
  · intro store st
    cases h : st.userData with
    | none => simp [Svc.AppComponent.loadWorkouts, h]
    | some u =>
      simp [Svc.AppComponent.loadWorkouts, h, Svc.AuthService.loadWorkouts]
  · intro store st
    cases h : st.userData with
    | none => simp [Svc.AppComponent.loadLocations, h]
    | some u =>
      simp [Svc.AppComponent.loadLocations, h, Svc.AuthService.loadLocations]

/-- Claim C4: a location saved through saveLocation and reloaded through
loadLocations keeps the latitude, longitude and accuracy of the transient
value, while its save timestamp is the time of the save call; with a save
time newer than every stored record the saved record is the head of the
reloaded descending list. -/
theorem claim4_roundtrip (now : Timestamp) (L : LocationData) (store : Svc.Store)
    (hfresh : ∀ d ∈ store.locations, d.savedAt < now) :
    ∃ (store2 : Svc.Store) (rec : Location) (rest : List Location),
      Svc.AuthService.saveLocation true now L store = Except.ok (store.nextId, store2) ∧
      Svc.AuthService.loadLocations true store2 = Except.ok (rec :: rest) ∧
      rec.latitude = L.latitude ∧ rec.longitude = L.longitude ∧
      rec.accuracy = L.accuracy ∧ rec.savedAt = now := by
  refine ⟨_, ⟨store.nextId, L.latitude, L.longitude, L.accuracy, L.timestamp, now⟩,
    sortByDesc (fun l => l.savedAt) store.locations, rfl, ?_, rfl, rfl, rfl, rfl⟩
  show Except.ok (sortByDesc (fun l => l.savedAt)
    (⟨store.nextId, L.latitude, L.longitude, L.accuracy, L.timestamp, now⟩ :: store.locations)) = _
  rw [sortByDesc_cons_of_fresh (fun y hy => hfresh y hy)]

/-- Witness for claim C4 at a concrete store and location. -/
theorem claim4_witness :
    ∃ (store2 : Svc.Store) (rec : Location) (rest : List Location),
      Svc.AuthService.saveLocation true 100 ⟨7, 8, 9, 20⟩ sampleStore
        = Except.ok (sampleStore.nextId, store2) ∧
      Svc.AuthService.loadLocations true store2 = Except.ok (rec :: rest) ∧
      rec.latitude = 7 ∧ rec.longitude = 8 ∧ rec.accuracy = 9 ∧ rec.savedAt = 100 :=
  claim4_roundtrip 100 ⟨7, 8, 9, 20⟩ sampleStore (by decide)

/-- Claim C7 counterexample: the service-variant geolocation capture
issues its request without any options configuration. -/
theorem claim7_counterexample :
    ¬ (∀ r ∈ (Svc.AppComponent.getCurrentLocation true (Except.ok samplePos) 50 ctrl0).1,
        r.options.isSome = true) := by
  decide

/-- Claim C7 (amended): each capture issues exactly one single-shot device
location request; the single-file variant passes the explicit high
accuracy, 10000 ms timeout, 60000 ms maximum cache age configuration,
while the service variant passes no options at all. -/
theorem claim7_amended :
    (∀ (outcome : Except GeoError GeoPosition) (now : Timestamp) (st : Inline.State),
       (Inline.AppComponent.getCurrentLocation outcome now st).1
         = [⟨true, some ⟨true, 10000, 60000⟩⟩]) ∧
    (∀ (outcome : Except GeoError GeoPosition) (now : Timestamp) (st : Svc.CtrlState),
       (Svc.AppComponent.getCurrentLocation true outcome now st).1 = [⟨true, none⟩]) := by
  constructor <;> intro outcome now st <;> cases outcome <;> rfl

/-- Claim C5 counterexample: the single-file controller maps the
wrong-password failure to the message without the trailing period, not to
the exact message with the period. -/
theorem claim5_counterexample :
    ¬ ((Inline.AppComponent.onLogin (Except.error ⟨"auth/wrong-password"⟩) none stILogin).2.loginError
        = "Incorrect password.") := by
  decide

/-- Claim C5 (amended): a wrong-password login failure is mapped to the
message with the trailing period by the service variant and to the same
message without the period by the single-file variant; in both, the
session value is unchanged and no user-scoped state is populated. -/
theorem claim5_amended :
    (∀ (session : Option AuthUser) (st : Svc.CtrlState),
       (Svc.AppComponent.onLogin (Except.error ⟨"auth/wrong-password"⟩) session st).1 = session ∧
       (Svc.AppComponent.onLogin (Except.error ⟨"auth/wrong-password"⟩) session st).2.loginError
         = "Incorrect password." ∧
       (Svc.AppComponent.onLogin (Except.error ⟨"auth/wrong-password"⟩) session st).2.userData
         = st.userData ∧
       (Svc.AppComponent.onLogin (Except.error ⟨"auth/wrong-password"⟩) session st).2.workouts
         = st.workouts ∧
       (Svc.AppComponent.onLogin (Except.error ⟨"auth/wrong-password"⟩) session st).2.savedLocations
         = st.savedLocations) ∧
    (∀ (session : Option AuthUser) (st : Inline.State),
       st.loginEmail ≠ "" → st.loginPassword ≠ "" →
       (Inline.AppComponent.onLogin (Except.error ⟨"auth/wrong-password"⟩) session st).1 = session ∧
       (Inline.AppComponent.onLogin (Except.error ⟨"auth/wrong-password"⟩) session st).2.loginError
         = "Incorrect password" ∧
       (Inline.AppComponent.onLogin (Except.error ⟨"auth/wrong-password"⟩) session st).2.userProfile
         = st.userProfile ∧
       (Inline.AppComponent.onLogin (Except.error ⟨"auth/wrong-password"⟩) session st).2.workouts
         = st.workouts) := by
  constructor
  · intro session st
    exact ⟨rfl, rfl, rfl, rfl, rfl⟩
  · intro session st he hp
    simp [Inline.AppComponent.onLogin, he, hp, Inline.AppComponent.getAuthErrorMessage]

/-- Witness for claim C5 at a concrete signed-out state with a filled
login form. -/
theorem claim5_witness :
    (Inline.AppComponent.onLogin (Except.error ⟨"auth/wrong-password"⟩) none stILogin).1 = none ∧
    (Inline.AppComponent.onLogin (Except.error ⟨"auth/wrong-password"⟩) none stILogin).2.loginError
      = "Incorrect password" :=
  ⟨(claim5_amended.2 none stILogin (by decide) (by decide)).1,
   (claim5_amended.2 none stILogin (by decide) (by decide)).2.1⟩

/-- Claim C8: updateUserProfile writes exactly the username and
displayName fields into the stored user document as a merge; every other
field of the document is unchanged. -/
theorem claim8_frame (username : String) (d d2 : Svc.Doc)
    (h : Svc.AuthService.updateUserProfile true username d = Except.ok d2) :
    d2 ("username") = some (Svc.FieldValue.str username) ∧
    d2 ("displayName") = some (Svc.FieldValue.str username) ∧
    ∀ k, k ≠ "username" → k ≠ "displayName" → d2 k = d k := by
  have h2 : d2 = Svc.setDocMerge
      [("username", Svc.FieldValue.str username),
       ("displayName", Svc.FieldValue.str username)] d := by
    simpa [Svc.AuthService.updateUserProfile] using h.symm
  subst h2
  refine ⟨rfl, rfl, ?_⟩
  intro k hk1 hk2
  have e1 : (("username" : String) == k) = false :=
    beq_eq_false_iff_ne.mpr (fun e => hk1 e.symm)
  have e2 : (("displayName" : String) == k) = false :=
    beq_eq_false_iff_ne.mpr (fun e => hk2 e.symm)
  simp [Svc.setDocMerge, e1, e2]

/-- Sample raw user document for the claim C8 witness. -/
def sampleDoc : Svc.Doc := fun k =>
  if k = "email" then some (Svc.FieldValue.str "a@x.com")
  else if k = "username" then some (Svc.FieldValue.str "Old")
  else if k = "isPremium" then some (Svc.FieldValue.flag false)
  else none

/-- Witness for claim C8: the merge write leaves the email field of a
concrete document untouched. -/
theorem claim8_witness :
    (Svc.setDocMerge
      [("username", Svc.FieldValue.str "Ana"),
       ("displayName", Svc.FieldValue.str "Ana")] sampleDoc) ("email")
      = sampleDoc ("email") :=
  (claim8_frame ("Ana") sampleDoc _ rfl).2.2 "email" (by decide) (by decide)

/-- Claim C9 counterexample: in the service variant a successful delete
followed by a failed list reload leaves the just-deleted workout id in the
observable list (the reload catch only logs, so the stale list survives). -/
theorem claim9_counterexample :
    1 ∈ ((Svc.AppComponent.deleteWorkout true false 1 sampleStore ctrlIn).2.workouts.map
      (fun w => w.id)) := by
  decide

/-- Claim C9 (amended): every workout or location delete awaits the record
delete and then the list reload. In the single-file variant the observable
list after the sequence never contains the deleted record id whatever the
reload outcome (a failed reload clears the list); in the service variant
this holds whenever the reload succeeds, a failed reload after a
successful delete keeping the previous stale list instead. -/
theorem claim9_amended :
    (∀ (u : AuthUser) (reloadOk : Bool) (wid : Nat) (store : Inline.Store)
       (st : Inline.State),
       wid ∉ ((Inline.AppComponent.deleteWorkout (some u) true reloadOk wid store st).2.workouts.map
         (fun w => w.id))) ∧
    (∀ (u : AuthUser) (reloadOk : Bool) (lid : Nat) (store : Inline.Store)
       (st : Inline.State),
       lid ∉ ((Inline.AppComponent.deleteLocation (some u) true reloadOk lid store st).2.savedLocations.map
         (fun l => l.id))) ∧
    (∀ (u : Svc.User) (wid : Nat) (store : Svc.Store) (st : Svc.CtrlState),
       st.userData = some u → u.uid ≠ "" →
       wid ∉ ((Svc.AppComponent.deleteWorkout true true wid store st).2.workouts.map
         (fun w => w.id))) ∧
    (∀ (u : Svc.User) (lid : Nat) (store : Svc.Store) (st : Svc.CtrlState),
       st.userData = some u → u.uid ≠ "" →
       lid ∉ ((Svc.AppComponent.deleteLocation true true lid store st).2.savedLocations.map
         (fun l => l.id))) := by
  refine ⟨?_, ?_, ?_, ?_⟩
  · intro u reloadOk wid store st
    cases reloadOk with
    | false =>
      simp [Inline.AppComponent.deleteWorkout, Inline.AppComponent.loadWorkouts]
    | true =>
      simp only [Inline.AppComponent.deleteWorkout, Inline.AppComponent.loadWorkouts]
      exact id_not_mem_sortByDesc_filter (fun w => w.id) (fun w => w.date) wid store.workouts
  · intro u reloadOk lid store st
    cases reloadOk with
    | false =>
      simp [Inline.AppComponent.deleteLocation, Inline.AppComponent.loadSavedLocations]
    | true =>
      simp only [Inline.AppComponent.deleteLocation, Inline.AppComponent.loadSavedLocations]
      exact id_not_mem_sortByDesc_filter (fun l => l.id) (fun l => l.savedAt) lid store.locations
  · intro u wid store st hu huid
    simp only [Svc.AppComponent.deleteWorkout, Svc.AuthService.deleteWorkout,
      Svc.AppComponent.loadWorkouts, Svc.AuthService.loadWorkouts, hu, if_neg huid]
    exact id_not_mem_sortByDesc_filter (fun w => w.id) (fun w => w.date) wid store.workouts
  · intro u lid store st hu huid
    simp only [Svc.AppComponent.deleteLocation, Svc.AuthService.deleteLocation,
      Svc.AppComponent.loadLocations, Svc.AuthService.loadLocations, hu, if_neg huid]
    exact id_not_mem_sortByDesc_filter (fun l => l.id) (fun l => l.savedAt) lid store.locations

/-- Witness for claim C9 at concrete stores holding the deleted ids. -/
theorem claim9_witness :
    (1 ∉ ((Inline.AppComponent.deleteWorkout (some sampleAuthUser) true true 1 sampleStoreI stI0).2.workouts.map
       (fun w => w.id))) ∧
    (1 ∉ ((Inline.AppComponent.deleteLocation (some sampleAuthUser) true true 1 sampleStoreI stI0).2.savedLocations.map
       (fun l => l.id))) ∧
    (1 ∉ ((Svc.AppComponent.deleteWorkout true true 1 sampleStore ctrlIn).2.workouts.map
       (fun w => w.id))) ∧
    (1 ∉ ((Svc.AppComponent.deleteLocation true true 1 sampleStore ctrlIn).2.savedLocations.map
       (fun l => l.id))) :=
  ⟨claim9_amended.1 sampleAuthUser true 1 sampleStoreI stI0,
   claim9_amended.2.1 sampleAuthUser true 1 sampleStoreI stI0,
   claim9_amended.2.2.1 sampleUser 1 sampleStore ctrlIn rfl (by decide),
   claim9_amended.2.2.2 sampleUser 1 sampleStore ctrlIn rfl (by decide)⟩

/-- createUserProfile with an authenticated current user always leaves a
profile in state, whether the store write succeeds or fails. -/
theorem createUserProfile_isSome (now : Timestamp) (writeOk : Bool) (u : AuthUser)
    (uid : String) (store : Inline.Store) (st : Inline.State) :
    ((Inline.AppComponent.createUserProfile now writeOk (some u) uid store st).2.userProfile).isSome
      = true := by
  cases writeOk <;> simp [Inline.AppComponent.createUserProfile]

/-- The service-variant controller loadWorkouts never changes the user
record field. -/
theorem svc_loadWorkouts_userData (ok : Bool) (store : Svc.Store) (st : Svc.CtrlState) :
    (Svc.AppComponent.loadWorkouts ok store st).userData = st.userData := by
  cases h : st.userData with
  | none => simp [Svc.AppComponent.loadWorkouts, h]
  | some u =>
    simp only [Svc.AppComponent.loadWorkouts, h]
    split
    · exact h
    · cases hlw : Svc.AuthService.loadWorkouts ok store with
      | ok ws => rfl
      | error e => exact h

/-- The service-variant controller loadLocations never changes the user
record field. -/
theorem svc_loadLocations_userData (ok : Bool) (store : Svc.Store) (st : Svc.CtrlState) :
    (Svc.AppComponent.loadLocations ok store st).userData = st.userData := by
  cases h : st.userData with
  | none => simp [Svc.AppComponent.loadLocations, h]
  | some u =>
    simp only [Svc.AppComponent.loadLocations, h]
    split
    · exact h
    · cases hll : Svc.AuthService.loadLocations ok store with
      | ok ls => rfl
      | error e => exact h

/-- Claim C1 counterexample: in the service variant, the session-stream
reaction for a signed-in user whose user document does not exist leaves
the user record absent instead of creating a default profile. -/
theorem claim1_counterexample :
    (Svc.AppComponent.onSessionChange true true true ⟨none, [], [], 0⟩
      (some sampleAuthUser) ctrl0).userData = none := by
  decide

/-- Claim C1 (amended): in the single-file variant, after loadUserProfile
completes for an established session a user profile record always exists
in state, default-created when the document is missing or any fetch or
write fails; in the service variant the session reaction creates no
fallback: a failed profile fetch leaves the user record unchanged (absent
when signing in from a signed-out state). -/
theorem claim1_amended :
    (∀ (now : Timestamp) (q0Ok q1Ok q2Ok writeOk : Bool) (u : AuthUser)
       (uid : String) (store : Inline.Store) (st : Inline.State),
       ((Inline.AppComponent.loadUserProfile now q0Ok q1Ok q2Ok writeOk
          (some u) uid store st).2.userProfile).isSome = true) ∧
    (∀ (wOk lOk : Bool) (store : Svc.Store) (fbu : AuthUser) (st : Svc.CtrlState),
       (Svc.AppComponent.onSessionChange false wOk lOk store (some fbu) st).userData
         = st.userData) := by
  constructor
  · intro now q0 q1 q2 wOk u uid store st
    unfold Inline.AppComponent.loadUserProfile
    split
    · exact createUserProfile_isSome now wOk u uid store st
    · dsimp only
      split
      · simp [Inline.AppComponent.setProfile]
      · split
        · exact createUserProfile_isSome now wOk u uid store st
        · split
          · simp [Inline.AppComponent.setProfile]
          · exact createUserProfile_isSome now wOk u uid store st
  · intro wOk lOk store fbu st
    show (Svc.AppComponent.loadLocations lOk store (Svc.AppComponent.loadWorkouts wOk store _)).userData
      = st.userData
    rw [svc_loadLocations_userData, svc_loadWorkouts_userData]
    rfl

end LiveFit
